import Mathlib

/-!
Verification of the MiniAgent (OpenRouter variant) core against its
natural-language specification.

The development shallowly embeds the Python sources:
  * `agent.py`   — the ReAct loop (`MiniAgent.run`), its response parser
    (`_parse_action`, `_check_final_answer`) and dispatcher (`_execute_tool`);
  * `tools.py`   — the docstring-driven tool-descriptor synthesizer;
  * `miniagent/tools/__init__.py` — the near-duplicate registry/synthesizer.

Python strings are Lean `String`s, Python dicts are association lists with
Python's assignment semantics (replace in place, append if new), JSON values
are the inductive `JVal`, exceptions are `Except`, and the network client is a
parameter `llm : List Message → String`.  The handful of regular expressions in
`agent.py` are embedded as explicit scanners whose semantics follow Python's
`re.search` on those concrete patterns (leftmost match, greedy/lazy
quantifiers as indicated at each definition).
-/

namespace MiniAgent

/-! ### Python string primitives -/

/-- Python regex `\s` / `str.strip()` whitespace over ASCII:
space, tab, newline, carriage return, vertical tab, form feed. -/
def pyIsSpace (c : Char) : Bool :=
  c = ' ' || c = '\t' || c = '\n' || c = '\r' || c.toNat = 11 || c.toNat = 12

/-- Python regex `\w` over ASCII: letters, digits, underscore. -/
def pyIsWord (c : Char) : Bool :=
  c.isAlphanum || c = '_'

/-- `str.strip()` on a character list: drop whitespace from both ends. -/
def pyStripList (cs : List Char) : List Char :=
  ((cs.dropWhile pyIsSpace).reverse.dropWhile pyIsSpace).reverse

/-- Python `str.strip()` (no argument): strip whitespace from both ends. -/
def pyStrip (s : String) : String :=
  String.mk (pyStripList s.data)

/-- Python `str.strip('"')`: strip all leading and trailing double quotes. -/
def stripQuotes (s : String) : String :=
  String.mk (((s.data.dropWhile (· = '"')).reverse.dropWhile (· = '"')).reverse)

/-- Whether `needle` is a prefix of `hay` (character-exact). -/
def listStartsWith : List Char → List Char → Bool
  | [], _ => true
  | _ :: _, [] => false
  | n :: ns, c :: cs => n = c && listStartsWith ns cs

/-- Whether `needle` occurs as a contiguous substring (Python `in`). -/
def listContainsSub (needle : List Char) : List Char → Bool
  | [] => listStartsWith needle []
  | c :: cs => listStartsWith needle (c :: cs) || listContainsSub needle cs

/-- Python `needle in hay` on strings. -/
def strContains (hay needle : String) : Bool :=
  listContainsSub needle.data hay.data

/-- Python `str.lower()` (ASCII; the texts involved are ASCII). -/
def pyLower (s : String) : String :=
  String.mk (s.data.map Char.toLower)

/-- Python `str.startswith(pre)`. -/
def strStartsWith (s pre : String) : Bool :=
  listStartsWith pre.data s.data

/-- Python `str.split('\n')`: every piece between newlines, empty pieces
included. -/
def splitLinesAux : List Char → List Char → List String
  | [], acc => [String.mk acc.reverse]
  | c :: cs, acc =>
    if c = '\n' then String.mk acc.reverse :: splitLinesAux cs []
    else splitLinesAux cs (c :: acc)

def splitLines (s : String) : List String :=
  splitLinesAux s.data []

/-- `sep.join(xs)` over strings. -/
def strIntercalate (sep : String) : List String → String
  | [] => ""
  | [x] => x
  | x :: y :: xs => x ++ sep ++ strIntercalate sep (y :: xs)

/-- Concatenation of a list of strings. -/
def strJoin : List String → String
  | [] => ""
  | s :: ss => s ++ strJoin ss

/-- Case-insensitive literal prefix match; on success returns the remainder
of the haystack after the literal.  Models matching a fixed regex literal
under `re.IGNORECASE`. -/
def ciStripLead : List Char → List Char → Option (List Char)
  | [], rest => some rest
  | _ :: _, [] => none
  | p :: ps, c :: cs => if p.toLower = c.toLower then ciStripLead ps cs else none

/-- Python `line.split(':', 1)` when a colon is present: the text before the
first colon and the text after it; `none` when there is no colon
(models the `":" in line` guard together with the split). -/
def splitFirstColonAux : List Char → Option (List Char × List Char)
  | [] => none
  | c :: cs =>
    if c = ':' then some ([], cs)
    else (splitFirstColonAux cs).map (fun p => (c :: p.1, p.2))

def splitFirstColon (s : String) : Option (String × String) :=
  (splitFirstColonAux s.data).map (fun p => (String.mk p.1, String.mk p.2))

/-! ### Python dict as association list

Python dict assignment `d[k] = v` replaces the value in place when the key
exists (keeping its position) and appends otherwise; lookup returns the value
of the unique entry. -/

def dictSet {α : Type} (d : List (String × α)) (k : String) (v : α) :
    List (String × α) :=
  match d with
  | [] => [(k, v)]
  | (k', v') :: rest => if k' = k then (k, v) :: rest else (k', v') :: dictSet rest k v

def dictGet {α : Type} (d : List (String × α)) (k : String) : Option α :=
  match d with
  | [] => none
  | (k', v) :: rest => if k' = k then some v else dictGet rest k

/-! ### JSON values and `json.loads`

`JVal` models the values produced by Python's `json.loads`: numbers keep
their raw lexeme (the claims never inspect numeric magnitudes), objects are
insertion-ordered association lists with last-value-wins on duplicate keys,
exactly as Python builds its dict. -/

inductive JVal where
  | jnull
  | jbool (b : Bool)
  | jnum (raw : String)
  | jstr (s : String)
  | jarr (items : List JVal)
  | jobj (fields : List (String × JVal))

/-- JSON inter-token whitespace accepted by Python's decoder. -/
def jsonIsWs (c : Char) : Bool :=
  c = ' ' || c = '\t' || c = '\n' || c = '\r'

def jsonSkipWs (cs : List Char) : List Char :=
  cs.dropWhile jsonIsWs

def hexDigitVal (c : Char) : Option Nat :=
  if c.isDigit then some (c.toNat - 48)
  else if 'a' ≤ c ∧ c ≤ 'f' then some (c.toNat - 87)
  else if 'A' ≤ c ∧ c ≤ 'F' then some (c.toNat - 55)
  else none

/-- Body of a JSON string literal (after the opening quote): strict mode, so
unescaped control characters are rejected; standard escapes plus `\uXXXX`. -/
def jparseStringLoop : List Char → List Char → Option (String × List Char)
  | [], _ => none
  | '"' :: cs, acc => some (String.mk acc.reverse, cs)
  | '\\' :: 'u' :: h1 :: h2 :: h3 :: h4 :: cs, acc =>
    match hexDigitVal h1, hexDigitVal h2, hexDigitVal h3, hexDigitVal h4 with
    | some a, some b, some c, some d =>
      jparseStringLoop cs (Char.ofNat (((a * 16 + b) * 16 + c) * 16 + d) :: acc)
    | _, _, _, _ => none
  | '\\' :: e :: cs, acc =>
    if e = '"' then jparseStringLoop cs ('"' :: acc)
    else if e = '\\' then jparseStringLoop cs ('\\' :: acc)
    else if e = '/' then jparseStringLoop cs ('/' :: acc)
    else if e = 'b' then jparseStringLoop cs (Char.ofNat 8 :: acc)
    else if e = 'f' then jparseStringLoop cs (Char.ofNat 12 :: acc)
    else if e = 'n' then jparseStringLoop cs ('\n' :: acc)
    else if e = 'r' then jparseStringLoop cs ('\r' :: acc)
    else if e = 't' then jparseStringLoop cs ('\t' :: acc)
    else none
  | c :: cs, acc =>
    if c.toNat < 32 then none else jparseStringLoop cs (c :: acc)

/-- A JSON string literal including the opening quote check. -/
def jparseString (cs : List Char) : Option (String × List Char) :=
  match cs with
  | '"' :: rest => jparseStringLoop rest []
  | _ => none

/-- Exponent part `[eE][+-]?digits` of a JSON number (optional). -/
def jparseExp (cs : List Char) : Option (List Char × List Char) :=
  match cs with
  | e :: rest =>
    if e = 'e' ∨ e = 'E' then
      let (sign, rest') := match rest with
        | '+' :: t => ([('+' : Char)], t)
        | '-' :: t => ([('-' : Char)], t)
        | t => ([], t)
      let ds := rest'.takeWhile Char.isDigit
      if ds = [] then none
      else some (e :: sign ++ ds, rest'.drop ds.length)
    else some ([], cs)
  | [] => some ([], cs)

/-- Fraction part `.digits` of a JSON number (optional). -/
def jparseFrac (cs : List Char) : Option (List Char × List Char) :=
  match cs with
  | '.' :: rest =>
    let ds := rest.takeWhile Char.isDigit
    if ds = [] then none
    else some ('.' :: ds, rest.drop ds.length)
  | _ => some ([], cs)

/-- JSON number per RFC grammar as enforced by Python's decoder:
`-? (0 | [1-9][0-9]*) frac? exp?`; returns the raw lexeme. -/
def jparseNumber (cs : List Char) : Option (String × List Char) :=
  let (sign, cs1) := match cs with
    | '-' :: t => ([('-' : Char)], t)
    | t => ([], t)
  match cs1 with
  | '0' :: rest =>
    match jparseFrac rest with
    | none => none
    | some (frac, rest') =>
      match jparseExp rest' with
      | none => none
      | some (ex, rest'') => some (String.mk (sign ++ '0' :: frac ++ ex), rest'')
  | c :: _ =>
    if c.isDigit then
      let ds := cs1.takeWhile Char.isDigit
      let rest := cs1.drop ds.length
      match jparseFrac rest with
      | none => none
      | some (frac, rest') =>
        match jparseExp rest' with
        | none => none
        | some (ex, rest'') => some (String.mk (sign ++ ds ++ frac ++ ex), rest'')
    else none
  | [] => none

mutual

/-- One JSON value at the head of the input (leading whitespace already
consumed by the caller), with Python's default acceptance of the
non-standard constants `Infinity`, `-Infinity` and `NaN`. -/
def jparseVal : Nat → List Char → Option (JVal × List Char)
  | 0, _ => none
  | fuel + 1, cs =>
    match cs with
    | [] => none
    | c :: rest =>
      if c = '{' then jparseObj fuel (jsonSkipWs rest) []
      else if c = '[' then jparseArr fuel (jsonSkipWs rest) []
      else if c = '"' then
        (jparseString cs).map (fun p => (JVal.jstr p.1, p.2))
      else if listStartsWith "true".data cs then some (JVal.jbool true, cs.drop 4)
      else if listStartsWith "false".data cs then some (JVal.jbool false, cs.drop 5)
      else if listStartsWith "null".data cs then some (JVal.jnull, cs.drop 4)
      else if listStartsWith "NaN".data cs then some (JVal.jnum "NaN", cs.drop 3)
      else if listStartsWith "Infinity".data cs then some (JVal.jnum "Infinity", cs.drop 8)
      else if listStartsWith "-Infinity".data cs then some (JVal.jnum "-Infinity", cs.drop 9)
      else
        (jparseNumber cs).map (fun p => (JVal.jnum p.1, p.2))

/-- Object members after `{` (leading whitespace consumed); duplicate keys
follow Python dict assignment (`dictSet`). -/
def jparseObj : Nat → List Char → List (String × JVal) → Option (JVal × List Char)
  | 0, _, _ => none
  | fuel + 1, cs, acc =>
    match cs with
    | '}' :: rest =>
      if acc.isEmpty then some (JVal.jobj [], rest) else none
    | _ =>
      match jparseString cs with
      | none => none
      | some (key, afterKey) =>
        match jsonSkipWs afterKey with
        | ':' :: afterColon =>
          match jparseVal fuel (jsonSkipWs afterColon) with
          | none => none
          | some (v, afterVal) =>
            let acc' := dictSet acc key v
            match jsonSkipWs afterVal with
            | ',' :: afterComma => jparseObj fuel (jsonSkipWs afterComma) acc'
            | '}' :: rest => some (JVal.jobj acc', rest)
            | _ => none
        | _ => none

/-- Array items after `[` (leading whitespace consumed). -/
def jparseArr : Nat → List Char → List JVal → Option (JVal × List Char)
  | 0, _, _ => none
  | fuel + 1, cs, acc =>
    match cs with
    | ']' :: rest =>
      if acc.isEmpty then some (JVal.jarr [], rest) else none
    | _ =>
      match jparseVal fuel (jsonSkipWs cs) with
      | none => none
      | some (v, afterVal) =>
        match jsonSkipWs afterVal with
        | ',' :: afterComma => jparseArr fuel (jsonSkipWs afterComma) (acc ++ [v])
        | ']' :: rest => some (JVal.jarr (acc ++ [v]), rest)
        | _ => none

end

/-- Python `json.loads`: one complete JSON document, allowing surrounding
whitespace, rejecting trailing garbage.  `none` models `JSONDecodeError`. -/
def jsonLoads (s : String) : Option JVal :=
  match jparseVal (s.length + 1) (jsonSkipWs s.data) with
  | some (v, rest) => if jsonSkipWs rest = [] then some v else none
  | none => none

/-! ### `json.dumps(..., indent=2)`

Used only by `_build_tool_descriptions` to render a tool's parameter schema
into the system message.  Mirrors Python's pretty printer: two-space
indentation, `", "` key separator, one element per line, `ensure_ascii`
escaping restricted to the control/quote/backslash escapes (the schemas the
agent renders are ASCII). -/

def jquoteChar (c : Char) : String :=
  if c = '"' then "\\\""
  else if c = '\\' then "\\\\"
  else if c = '\n' then "\\n"
  else if c = '\t' then "\\t"
  else if c = '\r' then "\\r"
  else if c.toNat = 8 then "\\b"
  else if c.toNat = 12 then "\\f"
  else if c.toNat < 32 then "\\u00" ++ String.mk [Char.ofNat (c.toNat / 16 + 48),
    if c.toNat % 16 < 10 then Char.ofNat (c.toNat % 16 + 48) else Char.ofNat (c.toNat % 16 + 87)]
  else String.mk [c]

def jquote (s : String) : String :=
  "\"" ++ strJoin (s.data.map jquoteChar) ++ "\""

def spaces (n : Nat) : String :=
  String.mk (List.replicate n ' ')

mutual

def jdump (ind : Nat) : JVal → String
  | .jnull => "null"
  | .jbool true => "true"
  | .jbool false => "false"
  | .jnum raw => raw
  | .jstr s => jquote s
  | .jarr [] => "[]"
  | .jarr (x :: xs) =>
    "[\n" ++ jdumpItems (ind + 2) (x :: xs) ++ "\n" ++ spaces ind ++ "]"
  | .jobj [] => "\x7b\x7d"
  | .jobj (f :: fs) =>
    "\x7b\n" ++ jdumpFields (ind + 2) (f :: fs) ++ "\n" ++ spaces ind ++ "\x7d"

def jdumpFields (ind : Nat) : List (String × JVal) → String
  | [] => ""
  | [(k, v)] => spaces ind ++ jquote k ++ ": " ++ jdump ind v
  | (k, v) :: f :: fs =>
    spaces ind ++ jquote k ++ ": " ++ jdump ind v ++ ",\n" ++ jdumpFields ind (f :: fs)

def jdumpItems (ind : Nat) : List JVal → String
  | [] => ""
  | [v] => spaces ind ++ jdump ind v
  | v :: w :: vs => spaces ind ++ jdump ind v ++ ",\n" ++ jdumpItems ind (w :: vs)

end

/-! ### Response Parser (`agent.py` lines 143–194)

The three regular expressions of `_parse_action` / `_check_final_answer` are
embedded as explicit leftmost-match scanners:

  * `re.search(r'Action:\s*(\w+)', text, re.IGNORECASE)`
  * `re.search(r'Action Input:\s*(\x7b.*?\x7d|\[.*?\]|".*?"|\d+)', text,
       re.IGNORECASE | re.DOTALL)`
  * `re.search(r'Thought:\s*(.*?)(?=\nAction:|$)', text,
       re.IGNORECASE | re.DOTALL)`
  * `re.search(r'Final Answer:\s*(.*)', text, re.IGNORECASE | re.DOTALL)`

Notes on fidelity: `\s` and `\w` are disjoint character classes, so the
greedy `\s*` between the literal and the payload never needs to backtrack —
taking the maximal whitespace run is exact.  The four `Action Input`
alternatives start with distinct characters (`{`, `[`, `"`, digit), so
alternation is deterministic; the lazy `.*?` under `DOTALL` stops at the
first closing delimiter.  When the payload fails at one occurrence of the
literal, `re.search` resumes from the next character, i.e. at a later
occurrence of the literal — modelled by the recursive calls. -/

/-- `re.search(r'Action:\s*(\w+)', text, re.IGNORECASE)`: the captured tool
name at the leftmost occurrence of `Action:` that is followed (after
whitespace) by at least one word character. -/
def searchActionName : List Char → Option String
  | [] => none
  | c :: cs =>
    match ciStripLead "action:".data (c :: cs) with
    | some rest =>
      let r := rest.dropWhile pyIsSpace
      match r with
      | d :: _ =>
        if pyIsWord d then some (String.mk (r.takeWhile pyIsWord))
        else searchActionName cs
      | [] => searchActionName cs
    | none => searchActionName cs

/-- Characters up to and including the first occurrence of `stop`
(the lazy `.*?` followed by the closing delimiter, under `DOTALL`). -/
def takeThrough (stop : Char) : List Char → Option (List Char)
  | [] => none
  | c :: cs =>
    if c = stop then some [c]
    else (takeThrough stop cs).map (fun l => c :: l)

/-- The `Action Input` payload: `\x7b.*?\x7d | \[.*?\] | ".*?" | \d+` after
greedy whitespace.  Returns the captured substring, or `none` when no
alternative matches at this occurrence of the literal. -/
def matchInputAlt (rest : List Char) : Option (List Char) :=
  let r := rest.dropWhile pyIsSpace
  match r with
  | '{' :: t => (takeThrough '}' t).map (fun body => '{' :: body)
  | '[' :: t => (takeThrough ']' t).map (fun body => '[' :: body)
  | '"' :: t => (takeThrough '"' t).map (fun body => '"' :: body)
  | d :: _ => if d.isDigit then some (r.takeWhile Char.isDigit) else none
  | [] => none

/-- `re.search(r'Action Input:\s*(...)', text, re.IGNORECASE | re.DOTALL)`:
the captured payload at the leftmost occurrence of `Action Input:` whose
payload matches one of the four alternatives. -/
def searchActionInput : List Char → Option (List Char)
  | [] => none
  | c :: cs =>
    match ciStripLead "action input:".data (c :: cs) with
    | some rest =>
      match matchInputAlt rest with
      | some cap => some cap
      | none => searchActionInput cs
    | none => searchActionInput cs

/-- The lazy capture of the `Thought` regex: characters until the first
position where the lookahead `\nAction:` (case-insensitive) matches, or the
`$` of a non-MULTILINE pattern (end of text, or just before a final
newline). -/
def thoughtTake : List Char → List Char
  | [] => []
  | c :: cs =>
    if (ciStripLead "\naction:".data (c :: cs)).isSome then []
    else if c = '\n' ∧ cs = [] then []
    else c :: thoughtTake cs

/-- `re.search(r'Thought:\s*(.*?)(?=\nAction:|$)', text,
re.IGNORECASE | re.DOTALL)`: search for the literal, then the capture. -/
def searchThought : List Char → Option String
  | [] => none
  | c :: cs =>
    match ciStripLead "thought:".data (c :: cs) with
    | some rest => some (String.mk (thoughtTake (rest.dropWhile pyIsSpace)))
    | none => searchThought cs

/-- Leftmost case-insensitive occurrence of `final answer:`; returns the
remainder of the text after the literal. -/
def searchCIFinal : List Char → Option (List Char)
  | [] => none
  | c :: cs =>
    match ciStripLead "final answer:".data (c :: cs) with
    | some rest => some rest
    | none => searchCIFinal cs

/-- `_check_final_answer` (`agent.py` 181–194): leftmost case-insensitive
`Final Answer:`; the capture `\s*(.*)` under DOTALL takes everything after
the greedy whitespace run, and the caller strips it. -/
def checkFinalAnswer (text : String) : Option String :=
  match searchCIFinal text.data with
  | some rest => some (pyStrip (String.mk (rest.dropWhile pyIsSpace)))
  | none => none

/-- The structured result of `_parse_action` (`agent.py` 143–179). -/
structure ParsedAction where
  action : String
  actionInput : JVal
  thought : String

/-- The `thought` component: captured group stripped, `""` when the
`Thought` regex does not match (`agent.py` line 160). -/
def parseThought (text : String) : String :=
  match searchThought text.data with
  | some t => pyStrip t
  | none => ""

/-- `_parse_action` (`agent.py` 143–179).  `none` iff the `Action:` regex
does not match.  The captured `Action Input` payload is stripped and decoded
as JSON; on decode failure the raw payload (with surrounding double quotes
stripped) becomes the sole value under the key `input`; with no payload
capture at all the input is the empty dict. -/
def parseAction (text : String) : Option ParsedAction :=
  match searchActionName text.data with
  | none => none
  | some actionRaw =>
    let action := pyStrip actionRaw
    let actionInput : JVal :=
      match searchActionInput text.data with
      | none => .jobj []
      | some cap =>
        let inputStr := pyStrip (String.mk cap)
        match jsonLoads inputStr with
        | some v => v
        | none => .jobj [("input", .jstr (stripQuotes inputStr))]
    some { action := action, actionInput := actionInput, thought := parseThought text }

/-! ### Execution Dispatcher (`agent.py` 196–225) -/

/-- Values an executor may return, with Python's `str()` on them.  The
claims only exercise scalar results; `str` of a Python string is the string
itself, which is why observations of string-returning tools appear
verbatim. -/
inductive PyVal where
  | pnone
  | pbool (b : Bool)
  | pint (n : Int)
  | pstr (s : String)

/-- Python `str()` on the embedded value universe. -/
def pyStr : PyVal → String
  | .pnone => "None"
  | .pbool true => "True"
  | .pbool false => "False"
  | .pint n => toString n
  | .pstr s => s

/-- A tool dict as stored in `self.tools`: keys `name`, `description`,
`parameters`, `executor`.  The executor models the Python callable invoked
with keyword arguments: it receives the expanded mapping and either returns
a value or raises (`Except.error` carries `str(e)`). -/
structure Tool where
  name : String
  description : String
  parameters : JVal
  executor : List (String × JVal) → Except String PyVal

/-- Python `repr` of a list of strings, used in the tool-not-found message
(`f"... {[t['name'] for t in self.tools]}"`).  Assumes names without quotes
or escapes, as all registered tool names are. -/
def pyReprStrList (xs : List String) : String :=
  "[" ++ strIntercalate ", " (xs.map (fun s => "\x27" ++ s ++ "\x27")) ++ "]"

/-- The call `tool['executor'](**tool_input)`: `**` requires a mapping, so a
non-object JSON input raises a `TypeError` before the executor body runs
(caught by the same `except` clause; the exact interpreter message is
abbreviated). -/
def callExecutor (t : Tool) (input : JVal) : Except String PyVal :=
  match input with
  | .jobj fields => t.executor fields
  | _ => .error "argument after ** must be a mapping"

/-- `_execute_tool` (`agent.py` 196–225): first tool with matching name;
not found yields the error observation listing available names; any
exception from the call is caught and rendered; success is `str(result)`.
Total — no exception ever propagates. -/
def executeTool (tools : List Tool) (toolName : String) (toolInput : JVal) : String :=
  match tools.find? (fun t => t.name == toolName) with
  | none =>
    "Error: Tool \x27" ++ toolName ++ "\x27 not found. Available tools: " ++
      pyReprStrList (tools.map (fun t => t.name))
  | some t =>
    match callExecutor t toolInput with
    | .ok result => pyStr result
    | .error e => "Error executing tool " ++ toolName ++ ": " ++ e

/-! ### Loop Controller (`agent.py` 227–293) -/

/-- One transcript entry: `{"role": ..., "content": ...}`. -/
structure Message where
  role : String
  content : String
deriving DecidableEq

/-- The literal returned when `max_iterations` iterations complete without
returning (`agent.py` line 293). -/
def apologyMessage : String :=
  "I apologize, but I couldn\x27t complete the task within the maximum number of steps. Please try rephrasing your question or breaking it into smaller parts."

/-- The reformatting nudge appended on an unrecognized reply
(`agent.py` lines 283–286). -/
def clarificationMessage : String :=
  "Please respond in the required format with either an Action or Final Answer."

/-- The default system prompt (`_get_default_system_prompt`,
`agent.py` 64–88). -/
def defaultSystemPrompt : String :=
  "You are a helpful AI assistant that can use tools to answer questions.\n\nWhen you need to use a tool, respond in this exact format:\n\nThought: [Your reasoning about what to do next]\nAction: [tool_name]\nAction Input: [JSON input for the tool]\n\nAfter using a tool, you will receive:\nObservation: [Result from the tool]\n\nThen continue reasoning until you have enough information to answer.\n\nWhen you have the final answer, respond in this format:\n\nThought: I now have enough information to answer\nFinal Answer: [Your complete answer to the user]\n\nImportant:\n- Always use the exact format shown above\n- Action Input must be valid JSON\n- Keep iterating until you can provide a Final Answer\n- Use tools when you need external information or computation"

/-- `_build_tool_descriptions` (`agent.py` 90–101). -/
def buildToolDescriptions (tools : List Tool) : String :=
  if tools.isEmpty then "No tools available."
  else
    "Available Tools:\n\n" ++ strJoin (tools.map (fun t =>
      "Tool: " ++ t.name ++ "\nDescription: " ++ t.description ++
      "\nParameters: " ++ jdump 0 t.parameters ++ "\n\n"))

/-- The agent state relevant to `run`: the configured system prompt, the
iteration bound and the mutable `self.tools` list. -/
structure Agent where
  systemPrompt : String
  maxIterations : Nat
  tools : List Tool

/-- Python truthiness of `final_answer` (an `Optional[str]`): `None` and the
empty string are falsy (`if final_answer:` on `agent.py` line 262). -/
def finalAnswerTruthy : Option String → Bool
  | none => false
  | some s => !(s == "")

/-- Outcome of one loop-body execution on a model reply. -/
inductive StepOutcome where
  | final (answer : String)
  | dispatched (messages : List Message)
  | nudged (messages : List Message)
  | bestEffort (answer : String)

/-- The loop body after the final-answer check has fallen through
(`agent.py` 266–289): dispatch an action and append the reply plus the
observation as a user message, or handle the no-match case. -/
def runStepNoFinal (tools : List Tool) (response : String)
    (iteration maxIterations : Nat) (messages : List Message) : StepOutcome :=
  match parseAction response with
  | some info =>
    let observation := executeTool tools info.action info.actionInput
    .dispatched (messages ++
      [⟨"assistant", response⟩, ⟨"user", "Observation: " ++ observation⟩])
  | none =>
    if strContains (pyLower response) "final answer" = false ∧
        iteration < maxIterations - 1 then
      .nudged (messages ++ [⟨"assistant", response⟩, ⟨"user", clarificationMessage⟩])
    else
      .bestEffort response

/-- The full loop body for a model reply (`agent.py` 260–289), including the
truthiness check on the final answer. -/
def runStep (tools : List Tool) (response : String)
    (iteration maxIterations : Nat) (messages : List Message) : StepOutcome :=
  match checkFinalAnswer response with
  | some a =>
    if a = "" then runStepNoFinal tools response iteration maxIterations messages
    else .final a
  | none => runStepNoFinal tools response iteration maxIterations messages

/-- Observable result of a `run`: the returned string, the number of model
completions requested, and the number of tool invocations performed. -/
structure RunResult where
  answer : String
  llmCalls : Nat
  toolCalls : Nat
deriving DecidableEq

/-- `for iteration in range(max_iterations)` (`agent.py` 252–293): `fuel` is
the number of remaining iterations (`maxIterations - iteration` at every
call from `run`).  Each entered iteration performs exactly one model call;
when the range is exhausted the fixed apology is returned. -/
def runIter (tools : List Tool) (llm : List Message → String)
    (maxIterations : Nat) : Nat → Nat → List Message → RunResult
  | _, 0, _ => ⟨apologyMessage, 0, 0⟩
  | iteration, fuel + 1, messages =>
    let response := llm messages
    match runStep tools response iteration maxIterations messages with
    | .final a => ⟨a, 1, 0⟩
    | .bestEffort a => ⟨a, 1, 0⟩
    | .dispatched ms =>
      let r := runIter tools llm maxIterations (iteration + 1) fuel ms
      ⟨r.answer, r.llmCalls + 1, r.toolCalls + 1⟩
    | .nudged ms =>
      let r := runIter tools llm maxIterations (iteration + 1) fuel ms
      ⟨r.answer, r.llmCalls + 1, r.toolCalls⟩

/-- `MiniAgent.run` (`agent.py` 227–293).  A non-`None` `tools` argument
replaces `self.tools` before anything else; the system message appends the
tool catalog only when the (possibly replaced) tool list is non-empty; the
transcript is seeded with the system and user messages.  Returns the run
result together with the post-run agent state (`self` after mutation). -/
def run (a : Agent) (llm : List Message → String) (query : String)
    (tools? : Option (List Tool)) : RunResult × Agent :=
  let a' := match tools? with
    | some ts => { a with tools := ts }
    | none => a
  let systemMessage :=
    if a'.tools.isEmpty then a'.systemPrompt
    else a'.systemPrompt ++ "\n\n" ++ buildToolDescriptions a'.tools
  let messages : List Message := [⟨"system", systemMessage⟩, ⟨"user", query⟩]
  (runIter a'.tools llm a'.maxIterations 0 a'.maxIterations messages, a')

/-! ### Tool Descriptor Synthesizers

Two divergent implementations exist in the repository:
  * `src/tools.py` (`get_tool_description`, lines 20–67): parses the
    docstring's `Args:` section, marks every parsed argument required, and
    maps only `int`/`float`/`bool` annotations;
  * `miniagent/tools/__init__.py` (`get_tool_description`, lines 46–131):
    walks the signature, marks a parameter required iff it has no default,
    and additionally maps `list`/`dict`.

Both operate on a callable's metadata, embedded as `PyFunc`. -/

/-- Python type annotations the synthesizers compare against. -/
inductive PyType where
  | int
  | float
  | bool
  | list
  | dict
  | str
  | custom (typeName : String)
deriving DecidableEq

/-- One parameter of a callable's signature: its name and whether
`inspect.Parameter.default` is non-empty. -/
structure PyParam where
  name : String
  hasDefault : Bool
deriving DecidableEq

/-- A Python callable's metadata as seen by the synthesizers: `__name__`,
the cleaned docstring (`inspect.getdoc`, `None` when absent), the
`_is_tool` attribute set by `src/tools.py`'s decorator, the signature
parameters in order, and `__annotations__` / `get_type_hints` as a map. -/
structure PyFunc where
  name : String
  doc : Option String
  isTool : Bool
  params : List PyParam
  annotations : List (String × PyType)
deriving DecidableEq

/-- One property entry of the synthesized JSON schema:
`{"type": ..., "description": ...}`. -/
structure PropSchema where
  type : String
  description : String
deriving DecidableEq

/-- The synthesized descriptor: `name`, `description`, the parameter schema
(`parameters` is the constant wrapper `{"type": "object", "properties": ...,
"required": ...}`, represented by its two varying components) and the
executor (the callable itself). -/
structure ToolDescriptor where
  name : String
  description : String
  properties : List (String × PropSchema)
  required : List String
  executor : PyFunc
deriving DecidableEq

/-- `register_tool` of `src/tools.py` (lines 12–18): sets `_is_tool` on the
function and returns it; there is no registry and no duplicate check. -/
def registerToolSrc (f : PyFunc) : PyFunc :=
  { f with isTool := true }

/-- `register_tool` of `miniagent/tools/__init__.py` (lines 18–43): stores
the function in the module-level dict `_custom_tool_registry` keyed by
`__name__` — a plain dict assignment, which silently replaces any existing
entry under the same name.  (The returned `@wraps` wrapper delegates to the
function and is behaviorally the function itself.) -/
def registerToolMnt (registry : List (String × PyFunc)) (f : PyFunc) :
    List (String × PyFunc) :=
  dictSet registry f.name f

/-- Type inference of `src/tools.py` (lines 48–57): default `"string"`;
when the argument name is annotated, `int`, `float` and `bool` map to
`"integer"`, `"number"`, `"boolean"` and everything else stays
`"string"`. -/
def srcArgType (f : PyFunc) (argName : String) : String :=
  match dictGet f.annotations argName with
  | none => "string"
  | some t =>
    match t with
    | .int => "integer"
    | .float => "number"
    | .bool => "boolean"
    | _ => "string"

/-- The docstring walk of `src/tools.py` (lines 37–60): after a stripped
line starting with `Args:`, every stripped line containing a colon is split
at the first colon into argument name and description; each such argument is
written into `properties` (dict assignment) and appended to `required` —
unconditionally, defaults are never consulted. -/
def srcArgsLoop (f : PyFunc) (lines : List String) (argsSection : Bool)
    (props : List (String × PropSchema)) (req : List String) :
    List (String × PropSchema) × List String :=
  match lines with
  | [] => (props, req)
  | l :: rest =>
    let line := pyStrip l
    if strStartsWith line "Args:" then srcArgsLoop f rest true props req
    else if argsSection then
      match splitFirstColon line with
      | some (an, ad) =>
        let argName := pyStrip an
        let argDesc := pyStrip ad
        srcArgsLoop f rest argsSection
          (dictSet props argName ⟨srcArgType f argName, argDesc⟩)
          (req ++ [argName])
      | none => srcArgsLoop f rest argsSection props req
    else srcArgsLoop f rest argsSection props req

/-- `get_tool_description` of `src/tools.py` (lines 20–67).  Raises
`TypeError` when `_is_tool` is unset and `ValueError` when the docstring is
missing or empty (`if not doc:`); otherwise the first docstring line is the
description and the `Args:` walk builds the schema. -/
def getToolDescriptionSrc (f : PyFunc) : Except String ToolDescriptor :=
  if !f.isTool then .error "Function is not a registered tool."
  else
    match f.doc with
    | none => .error "Tool function must have a docstring."
    | some d =>
      if d = "" then .error "Tool function must have a docstring."
      else
        let lines := splitLines d
        let description := lines.headD ""
        let pr := srcArgsLoop f lines.tail false [] []
        .ok ⟨f.name, description, pr.1, pr.2, f⟩

/-- Python truthiness of `func.__doc__` (`if func.__doc__:` /
`func.__doc__ or ...`): `None` and `""` are falsy. -/
def pyDocTruthy : Option String → Bool
  | none => false
  | some s => !(s == "")

/-- The per-parameter docstring scan of `miniagent/tools/__init__.py`
(lines 100–115): after any line containing `Args:`, the first line
containing the parameter name contributes the text after its first colon
(default description when there is no colon — the loop breaks either way);
a non-blank line not starting with the parameter name leaves the `Args`
section. -/
def mntDescLoop (pname : String) (inArgs : Bool) : List String → Option String
  | [] => none
  | l :: ls =>
    if strContains l "Args:" then mntDescLoop pname true ls
    else if inArgs && strContains l pname then
      match splitFirstColon l with
      | some (_, after) => some (pyStrip after)
      | none => none
    else if inArgs && !(pyStrip l == "") && !(strStartsWith (pyStrip l) pname) then
      mntDescLoop pname false ls
    else mntDescLoop pname inArgs ls

/-- The description of one parameter in the `__init__.py` synthesizer:
`f"Parameter {param_name}"` unless the docstring scan finds one. -/
def mntParamDesc (f : PyFunc) (pname : String) : String :=
  if pyDocTruthy f.doc then
    match mntDescLoop pname false (splitLines (f.doc.getD "")) with
    | some d => d
    | none => "Parameter " ++ pname
  else "Parameter " ++ pname

/-- The `__init__.py` JSON-type chain (lines 86–97): `type_hints.get(name,
str)` then `int→integer`, `float→number`, `bool→boolean`, `list→array`,
`dict→object`, else `string`. -/
def mntJsonType : PyType → String
  | .int => "integer"
  | .float => "number"
  | .bool => "boolean"
  | .list => "array"
  | .dict => "object"
  | _ => "string"

/-- The schema entry built for one parameter by the `__init__.py`
synthesizer. -/
def mntSchema (f : PyFunc) (pname : String) : PropSchema :=
  ⟨mntJsonType ((dictGet f.annotations pname).getD .str), mntParamDesc f pname⟩

/-- The signature walk of `miniagent/tools/__init__.py` (lines 79–124):
skip `self`; write the property (dict assignment); append to `required`
exactly when the parameter has no default. -/
def mntLoop (f : PyFunc) (ps : List PyParam)
    (props : List (String × PropSchema)) (req : List String) :
    List (String × PropSchema) × List String :=
  match ps with
  | [] => (props, req)
  | p :: rest =>
    if p.name = "self" then mntLoop f rest props req
    else
      mntLoop f rest (dictSet props p.name (mntSchema f p.name))
        (if p.hasDefault then req else req ++ [p.name])

/-- `get_tool_description` of `miniagent/tools/__init__.py` (lines 46–131):
never raises; the description is the stripped docstring or the fixed
placeholder. -/
def getToolDescriptionMnt (f : PyFunc) : ToolDescriptor :=
  let description :=
    pyStrip (if pyDocTruthy f.doc then f.doc.getD "" else "No description available")
  let pr := mntLoop f f.params [] []
  ⟨f.name, description, pr.1, pr.2, f⟩

/-! ### Helper lemmas -/

theorem dictGet_dictSet_self {α : Type} (d : List (String × α)) (k : String) (v : α) :
    dictGet (dictSet d k v) k = some v := by
  induction d with
  | nil => simp [dictSet, dictGet]
  | cons p t ih =>
    obtain ⟨k', v'⟩ := p
    by_cases hk : k' = k
    · simp [dictSet, dictGet, hk]
    · simp [dictSet, dictGet, hk, ih]

theorem dictSet_eq_append {α : Type} (d : List (String × α)) (k : String) (v : α)
    (h : k ∉ d.map Prod.fst) : dictSet d k v = d ++ [(k, v)] := by
  induction d with
  | nil => rfl
  | cons p t ih =>
    obtain ⟨k', v'⟩ := p
    simp only [List.map_cons, List.mem_cons] at h
    push_neg at h
    obtain ⟨h1, h2⟩ := h
    simp [dictSet, Ne.symm h1, ih h2]

theorem runStep_of_not_truthy (tools : List Tool) (response : String)
    (iteration maxIterations : Nat) (messages : List Message)
    (hf : finalAnswerTruthy (checkFinalAnswer response) = false) :
    runStep tools response iteration maxIterations messages =
      runStepNoFinal tools response iteration maxIterations messages := by
  unfold runStep
  cases h : checkFinalAnswer response with
  | none => rfl
  | some a =>
    rw [h] at hf
    simp only [finalAnswerTruthy, Bool.not_eq_false', beq_iff_eq] at hf
    simp [hf]

theorem runIter_final (tools : List Tool) (llm : List Message → String)
    (maxIterations iteration fuel : Nat) (messages : List Message) (a : String)
    (h1 : checkFinalAnswer (llm messages) = some a) (h2 : a ≠ "") :
    runIter tools llm maxIterations iteration (fuel + 1) messages = ⟨a, 1, 0⟩ := by
  simp [runIter, runStep, h1, h2]

theorem runIter_dispatched (tools : List Tool) (llm : List Message → String)
    (maxIterations iteration fuel : Nat) (messages : List Message) (info : ParsedAction)
    (hf : finalAnswerTruthy (checkFinalAnswer (llm messages)) = false)
    (hp : parseAction (llm messages) = some info) :
    runIter tools llm maxIterations iteration (fuel + 1) messages =
      (let r := runIter tools llm maxIterations (iteration + 1) fuel
        (messages ++ [⟨"assistant", llm messages⟩,
          ⟨"user", "Observation: " ++ executeTool tools info.action info.actionInput⟩]);
       ⟨r.answer, r.llmCalls + 1, r.toolCalls + 1⟩) := by
  simp [runIter, runStep_of_not_truthy _ _ _ _ _ hf, runStepNoFinal, hp]

theorem runIter_nudged (tools : List Tool) (llm : List Message → String)
    (maxIterations iteration fuel : Nat) (messages : List Message)
    (h1 : checkFinalAnswer (llm messages) = none)
    (h2 : parseAction (llm messages) = none)
    (h3 : strContains (pyLower (llm messages)) "final answer" = false)
    (h4 : iteration < maxIterations - 1) :
    runIter tools llm maxIterations iteration (fuel + 1) messages =
      (let r := runIter tools llm maxIterations (iteration + 1) fuel
        (messages ++ [⟨"assistant", llm messages⟩, ⟨"user", clarificationMessage⟩]);
       ⟨r.answer, r.llmCalls + 1, r.toolCalls⟩) := by
  simp [runIter, runStep, runStepNoFinal, h1, h2, h3, h4]

theorem runIter_bestEffort (tools : List Tool) (llm : List Message → String)
    (maxIterations iteration fuel : Nat) (messages : List Message)
    (h1 : checkFinalAnswer (llm messages) = none)
    (h2 : parseAction (llm messages) = none)
    (hc : ¬(strContains (pyLower (llm messages)) "final answer" = false ∧
        iteration < maxIterations - 1)) :
    runIter tools llm maxIterations iteration (fuel + 1) messages = ⟨llm messages, 1, 0⟩ := by
  simp only [runIter, runStep, runStepNoFinal, h1, h2]
  rw [if_neg hc]

/-- The schema-kind mapping exactly as the specification states it (§4.1):
integer→integer, real→number, boolean→boolean, sequence→array,
mapping→object, anything else→string, default string with no
annotation present. -/
def specSchemaKind : Option PyType → String
  | some .int => "integer"
  | some .float => "number"
  | some .bool => "boolean"
  | some .list => "array"
  | some .dict => "object"
  | some _ => "string"
  | none => "string"

theorem mntJsonType_getD (o : Option PyType) :
    mntJsonType (o.getD .str) = specSchemaKind o := by
  cases o with
  | none => rfl
  | some t => cases t <;> rfl

theorem mntSchema_eq (f : PyFunc) (pname : String) :
    mntSchema f pname =
      ⟨specSchemaKind (dictGet f.annotations pname), mntParamDesc f pname⟩ := by
  unfold mntSchema
  rw [mntJsonType_getD]

theorem mntLoop_req (f : PyFunc) (ps : List PyParam) :
    ∀ props req, (mntLoop f ps props req).2 =
      req ++ (ps.filter (fun p => p.name != "self" && !p.hasDefault)).map PyParam.name := by
  induction ps with
  | nil => intro props req; simp [mntLoop]
  | cons p rest ih =>
    intro props req
    by_cases hs : p.name = "self"
    · simp [mntLoop, hs, ih]
    · by_cases hd : p.hasDefault
      · simp [mntLoop, hs, hd, ih]
      · simp [mntLoop, hs, hd, ih]

theorem mntLoop_props (f : PyFunc) (ps : List PyParam) :
    ∀ props req, (ps.map PyParam.name).Nodup →
      (∀ p ∈ ps, p.name ∉ props.map Prod.fst) →
      (mntLoop f ps props req).1 =
        props ++ (ps.filter (fun p => p.name != "self")).map
          (fun p => (p.name, mntSchema f p.name)) := by
  induction ps with
  | nil => intro props req _ _; simp [mntLoop]
  | cons p rest ih =>
    intro props req hnd hkeys
    simp only [List.map_cons, List.nodup_cons] at hnd
    obtain ⟨hp_notin, hnd'⟩ := hnd
    by_cases hs : p.name = "self"
    · rw [mntLoop, if_pos hs]
      rw [ih props req hnd' (fun q hq => hkeys q (List.mem_cons_of_mem p hq))]
      simp [hs]
    · rw [mntLoop, if_neg hs]
      have hset : dictSet props p.name (mntSchema f p.name) =
          props ++ [(p.name, mntSchema f p.name)] :=
        dictSet_eq_append _ _ _ (hkeys p (List.mem_cons_self p rest))
      rw [hset]
      rw [ih _ _ hnd' ?_]
      · simp [hs]
      · intro q hq
        simp only [List.map_append, List.mem_append, List.map_cons]
        push_neg
        constructor
        · exact hkeys q (List.mem_cons_of_mem p hq)
        · intro hmem
          simp only [List.map_nil, List.mem_cons, List.not_mem_nil, or_false] at hmem
          exact hp_notin (hmem ▸ List.mem_map_of_mem PyParam.name hq)

/-! ### Claims -/

/-- C1 (counterexample): the priority law fails as universally stated.  The
completion below contains a `Final Answer:` marker (the parser finds it and
captures the empty remainder), yet because `run` tests the captured answer
for Python truthiness, the empty answer falls through to action parsing and
a tool IS dispatched: the run performs a tool call (`toolCalls = 1`) instead
of returning the trimmed remainder `""` with no dispatch. -/
theorem c1_final_priority_counterexample :
    checkFinalAnswer
        "Action: calculator\nAction Input: \x7b\"expression\":\"1+1\"\x7d\nFinal Answer:" =
      some "" ∧
    (run ⟨"sys", 3, [⟨"calculator", "Evaluate", JVal.jobj [], fun _ => .ok (.pstr "2")⟩]⟩
      (fun ms => if ms.length == 2
        then "Action: calculator\nAction Input: \x7b\"expression\":\"1+1\"\x7d\nFinal Answer:"
        else "Final Answer: 2")
      "q" none).1 = ⟨"2", 2, 1⟩ :=
  ⟨rfl, by decide⟩

/-- C1 (amended): for every model completion whose text after the first
`Final Answer:` marker (case-insensitive) is non-empty once trimmed, the
loop returns that trimmed remainder as the final answer after the one model
call, with no tool dispatch — regardless of any `Action:` marker in the
completion. -/
theorem c1_final_priority (tools : List Tool) (llm : List Message → String)
    (maxIterations iteration fuel : Nat) (messages : List Message) (a : String)
    (h1 : checkFinalAnswer (llm messages) = some a) (h2 : a ≠ "") :
    runIter tools llm maxIterations iteration (fuel + 1) messages = ⟨a, 1, 0⟩ :=
  runIter_final tools llm maxIterations iteration fuel messages a h1 h2

/-- C1 (witness): the specification's own test literal, which contains both
an `Action:` marker and a `Final Answer:` marker, yields the final answer
`"2"` with no tool call. -/
theorem c1_final_priority_witness :
    checkFinalAnswer
        "Thought: done\nAction: calculator\nAction Input: \x7b\"expression\":\"1+1\"\x7d\nFinal Answer: 2" =
      some "2" ∧
    runIter []
      (fun _ => "Thought: done\nAction: calculator\nAction Input: \x7b\"expression\":\"1+1\"\x7d\nFinal Answer: 2")
      10 0 10 [] = ⟨"2", 1, 0⟩ :=
  ⟨rfl, c1_final_priority [] _ 10 0 9 [] "2" rfl (by decide)⟩

/-- C2 (counterexample): with a stub that always returns unrecognizable
text and `max_iterations = 3`, `run` makes exactly 3 model calls but
returns the third raw reply verbatim, not the fixed apology string — the
last iteration takes the best-effort `return response` branch, so the
post-loop apology is unreachable on this path. -/
theorem c2_bounded_termination_counterexample :
    checkFinalAnswer "blah" = none ∧ parseAction "blah" = none ∧
    (run ⟨"sys", 3, []⟩ (fun _ => "blah") "q" none).1 = ⟨"blah", 3, 0⟩ ∧
    "blah" ≠ apologyMessage :=
  ⟨rfl, rfl, by decide, by decide⟩

/-- C2 (amended): with a Model Client stub that always returns the same
unrecognizable text (no `Final Answer:` match, no `Action:` match, and the
phrase `final answer` absent case-insensitively) and `max_iterations = 3`,
`run` performs exactly 3 model calls, dispatches no tool, and returns the
raw stub text verbatim (the best-effort fallback), not the apology
string. -/
theorem c2_bounded_termination (tools : List Tool) (sp q s : String)
    (h1 : checkFinalAnswer s = none) (h2 : parseAction s = none)
    (h3 : strContains (pyLower s) "final answer" = false) :
    (run ⟨sp, 3, tools⟩ (fun _ => s) q none).1 = ⟨s, 3, 0⟩ := by
  have st2 : ∀ msgs : List Message, runIter tools (fun _ => s) 3 2 1 msgs = ⟨s, 1, 0⟩ :=
    fun msgs => runIter_bestEffort tools _ 3 2 0 msgs h1 h2 (fun h => absurd h.2 (by decide))
  have st1 : ∀ msgs : List Message, runIter tools (fun _ => s) 3 1 2 msgs = ⟨s, 2, 0⟩ := by
    intro msgs
    refine Eq.trans (runIter_nudged tools _ 3 1 1 msgs h1 h2 h3 (by decide)) ?_
    simp [st2]
  have st0 : ∀ msgs : List Message, runIter tools (fun _ => s) 3 0 3 msgs = ⟨s, 3, 0⟩ := by
    intro msgs
    refine Eq.trans (runIter_nudged tools _ 3 0 2 msgs h1 h2 h3 (by decide)) ?_
    simp [st1]
  exact st0 _

/-- C2 (witness): a concrete always-gibberish stub at `max_iterations = 3`
yields the raw text after exactly 3 model calls and 0 tool calls. -/
theorem c2_bounded_termination_witness :
    (run ⟨"sys", 3, []⟩ (fun _ => "gibberish") "q" none).1 = ⟨"gibberish", 3, 0⟩ :=
  c2_bounded_termination [] "sys" "q" "gibberish" rfl rfl rfl

/-- C3: the Execution Dispatcher is total over Action intents: when no
registered tool bears the requested name the observation is the
human-readable error naming the tool and listing the available names; when
the call raises, the observation describes the failure; otherwise the
executor runs on the expanded input mapping and its result is stringified.
No case propagates an exception (`executeTool` is a total function into
`String`). -/
theorem c3_dispatcher_totality (tools : List Tool) (toolName : String) (input : JVal) :
    (tools.find? (fun t => t.name == toolName) = none →
      executeTool tools toolName input =
        "Error: Tool \x27" ++ toolName ++ "\x27 not found. Available tools: " ++
          pyReprStrList (tools.map (fun t => t.name))) ∧
    (∀ t, tools.find? (fun t => t.name == toolName) = some t →
      (∀ e, callExecutor t input = .error e →
        executeTool tools toolName input = "Error executing tool " ++ toolName ++ ": " ++ e) ∧
      (∀ v, callExecutor t input = .ok v →
        executeTool tools toolName input = pyStr v)) := by
  refine ⟨fun h => ?_, fun t ht => ⟨fun e he => ?_, fun v hv => ?_⟩⟩ <;>
    simp [executeTool, *]

/-- Concrete tool for the C3 witness: echoes its `text` argument, raising
when it is absent. -/
def echoTool : Tool :=
  ⟨"echo", "Echo text", JVal.jobj [], fun fields =>
    match dictGet fields "text" with
    | some (.jstr s) => .ok (.pstr s)
    | _ => .error "missing text"⟩

/-- C3 (witness): the three dispatcher cases at concrete inputs — unknown
tool name, raising executor, succeeding executor. -/
theorem c3_dispatcher_totality_witness :
    executeTool [echoTool] "nope" (JVal.jobj []) =
      "Error: Tool \x27nope\x27 not found. Available tools: [\x27echo\x27]" ∧
    executeTool [echoTool] "echo" (JVal.jobj []) =
      "Error executing tool echo: missing text" ∧
    executeTool [echoTool] "echo" (JVal.jobj [("text", JVal.jstr "hi")]) = "hi" :=
  ⟨(c3_dispatcher_totality [echoTool] "nope" (JVal.jobj [])).1 rfl,
   ((c3_dispatcher_totality [echoTool] "echo" (JVal.jobj [])).2 echoTool rfl).1
     "missing text" rfl,
   ((c3_dispatcher_totality [echoTool] "echo" (JVal.jobj [("text", JVal.jstr "hi")])).2
     echoTool rfl).2 (.pstr "hi") rfl⟩

/-- C4 (counterexample): the claim fails on the specification's own
example.  `Action Input: banana` is not captured at all — the capture group
only admits `\x7b...\x7d`, `[...]`, a quoted string, or digits — so the
parser produces the EMPTY mapping, not the one-entry mapping
`\x7b"input": "banana"\x7d`. -/
theorem c4_malformed_input_counterexample :
    parseAction "Action: foo\nAction Input: banana" = some ⟨"foo", JVal.jobj [], ""⟩ ∧
    JVal.jobj [] ≠ JVal.jobj [("input", JVal.jstr "banana")] :=
  ⟨rfl, by simp⟩

/-- C4 (amended): whenever the `Action:` regex matches and the
`Action Input:` capture succeeds with payload `cap` (one of the shapes
`\x7b...\x7d`, `[...]`, `"..."`, digits) but the payload is not valid JSON,
the parser produces the one-entry mapping with the trimmed payload
(surrounding double quotes stripped) under the key `input`; a bare
non-matching token such as `banana` is never captured and yields the empty
mapping instead. -/
theorem c4_malformed_input (text : String) (act : String) (cap : List Char)
    (h1 : searchActionName text.data = some act)
    (h2 : searchActionInput text.data = some cap)
    (h3 : jsonLoads (pyStrip (String.mk cap)) = none) :
    parseAction text =
      some ⟨pyStrip act,
        JVal.jobj [("input", JVal.jstr (stripQuotes (pyStrip (String.mk cap))))],
        parseThought text⟩ := by
  simp [parseAction, h1, h2, h3]

/-- C4 (witness): a captured-but-invalid payload `\x7bbanana\x7d` reaches
the dispatcher as the one-entry `input` mapping holding the raw payload. -/
theorem c4_malformed_input_witness :
    parseAction "Action: foo\nAction Input: \x7bbanana\x7d" =
      some ⟨"foo", JVal.jobj [("input", JVal.jstr "\x7bbanana\x7d")], ""⟩ :=
  c4_malformed_input _ "foo" "\x7bbanana\x7d".data rfl rfl rfl

/-- Callable for the C5 counterexample: its only parameter `x` HAS a
default value, yet it is listed in the docstring `Args:` section. -/
def c5srcFunc : PyFunc :=
  ⟨"add", some "Add.\nArgs:\n x: the value", true, [⟨"x", true⟩], [("x", PyType.int)]⟩

/-- C5 (counterexample): the `src/tools.py` synthesizer marks `x` required
even though `x` has a default value — it appends every docstring-listed
argument to `required` and never consults defaults, so required-iff-no-default
fails on this implementation. -/
theorem c5_required_iff_counterexample :
    Except.map ToolDescriptor.required (getToolDescriptionSrc c5srcFunc) = .ok ["x"] ∧
    c5srcFunc.params = [⟨"x", true⟩] :=
  ⟨rfl, rfl⟩

/-- C5 (amended): for the `miniagent/tools/__init__.py` synthesizer, the
`required` list consists exactly of the non-`self` parameters without a
default value, in signature order — i.e. required-iff-no-default holds for
that implementation (the `src/tools.py` variant instead marks every
docstring-listed argument required). -/
theorem c5_required_iff_no_default (f : PyFunc) :
    (getToolDescriptionMnt f).required =
      (f.params.filter (fun p => p.name != "self" && !p.hasDefault)).map PyParam.name := by
  have h : (getToolDescriptionMnt f).required = (mntLoop f f.params [] []).2 := rfl
  rw [h, mntLoop_req]
  simp

/-- C6 (counterexample): a reply with neither marker, at iteration 0 of 3
(not the last allowed iteration), is returned verbatim after a single model
call instead of being answered with a clarification instruction — because
it happens to contain the phrase `final answer` (without a colon), the code
takes the best-effort return branch early. -/
theorem c6_no_match_counterexample :
    checkFinalAnswer "my final answer is unclear" = none ∧
    parseAction "my final answer is unclear" = none ∧
    (run ⟨"sys", 3, []⟩
      (fun ms => if ms.length == 2 then "my final answer is unclear" else "Final Answer: 42")
      "q" none).1 = ⟨"my final answer is unclear", 1, 0⟩ :=
  ⟨rfl, rfl, by decide⟩

/-- C6 (amended): for a reply with neither a `Final Answer:` match nor an
`Action:` match: when the phrase `final answer` is absent (case-insensitive)
AND the iteration is not the last allowed one, the loop appends the
assistant reply plus the clarification instruction and continues; otherwise
(last allowed iteration, or the phrase present) the raw reply is returned
verbatim after that single model call. -/
theorem c6_no_match_handling (tools : List Tool) (llm : List Message → String)
    (maxIterations iteration fuel : Nat) (messages : List Message)
    (h1 : checkFinalAnswer (llm messages) = none)
    (h2 : parseAction (llm messages) = none) :
    ((strContains (pyLower (llm messages)) "final answer" = false ∧
        iteration < maxIterations - 1) →
      runIter tools llm maxIterations iteration (fuel + 1) messages =
        (let r := runIter tools llm maxIterations (iteration + 1) fuel
          (messages ++ [⟨"assistant", llm messages⟩, ⟨"user", clarificationMessage⟩]);
         ⟨r.answer, r.llmCalls + 1, r.toolCalls⟩)) ∧
    (¬(strContains (pyLower (llm messages)) "final answer" = false ∧
        iteration < maxIterations - 1) →
      runIter tools llm maxIterations iteration (fuel + 1) messages = ⟨llm messages, 1, 0⟩) :=
  ⟨fun h => runIter_nudged tools llm maxIterations iteration fuel messages h1 h2 h.1 h.2,
   fun h => runIter_bestEffort tools llm maxIterations iteration fuel messages h1 h2 h⟩

/-- C6 (witness): both branches at concrete inputs — iteration 0 of 3
appends the two messages and continues; iteration 2 of 3 (the last) returns
the raw reply. -/
theorem c6_no_match_handling_witness :
    runIter [] (fun _ => "xyz") 3 0 2 [] =
      (let r := runIter [] (fun _ => "xyz") 3 1 1
        ([] ++ [⟨"assistant", "xyz"⟩, ⟨"user", clarificationMessage⟩]);
       ⟨r.answer, r.llmCalls + 1, r.toolCalls⟩) ∧
    runIter [] (fun _ => "xyz") 3 2 1 [] = ⟨"xyz", 1, 0⟩ :=
  ⟨(c6_no_match_handling [] (fun _ => "xyz") 3 0 1 [] rfl rfl).1 (by decide),
   (c6_no_match_handling [] (fun _ => "xyz") 3 2 0 [] rfl rfl).2 (by decide)⟩

/-- C7 (counterexample): registering a second function under an existing
name does not fail — no `DuplicateNameError` exists anywhere in the source —
it silently replaces the first registration in the module-level dict. -/
theorem c7_duplicate_registration_counterexample :
    registerToolMnt (registerToolMnt [] ⟨"t", some "first", false, [], []⟩)
        ⟨"t", some "second", false, [], []⟩ =
      [("t", ⟨"t", some "second", false, [], []⟩)] ∧
    (⟨"t", some "second", false, [], []⟩ : PyFunc) ≠ ⟨"t", some "first", false, [], []⟩ :=
  ⟨rfl, by decide⟩

/-- C7 (amended): registration always succeeds and the registry maps the
function's name to the most recently registered function — a duplicate name
silently overwrites the previous entry rather than raising. -/
theorem c7_registration_overwrites (registry : List (String × PyFunc)) (f : PyFunc) :
    dictGet (registerToolMnt registry f) f.name = some f :=
  dictGet_dictSet_self registry f.name f

/-- Callable for the C8 counterexample: one parameter annotated `list`,
listed in the docstring `Args:` section. -/
def c8srcFunc : PyFunc :=
  ⟨"collect", some "Collect.\nArgs:\n xs: the values", true, [⟨"xs", false⟩],
    [("xs", PyType.list)]⟩

/-- C8 (counterexample): the `src/tools.py` synthesizer maps a `list`
annotation to schema kind `"string"`, not `"array"` — its type chain only
covers `int`, `float` and `bool`. -/
theorem c8_type_mapping_counterexample :
    Except.map (fun d => dictGet d.properties "xs") (getToolDescriptionSrc c8srcFunc) =
      .ok (some ⟨"string", "the values"⟩) ∧
    ("string" : String) ≠ "array" :=
  ⟨rfl, by decide⟩

/-- C8 (amended): for the `miniagent/tools/__init__.py` synthesizer (on
signatures with distinct parameter names, as Python guarantees), every
non-`self` parameter receives exactly the specification's schema-kind
mapping — `int→integer`, `float→number`, `bool→boolean`, `list→array`,
`dict→object`, anything else or no annotation → `string` — while the
`src/tools.py` variant maps `list` and `dict` to `string`. -/
theorem c8_type_mapping (f : PyFunc) (h : (f.params.map PyParam.name).Nodup) :
    (getToolDescriptionMnt f).properties =
      (f.params.filter (fun p => p.name != "self")).map
        (fun p => (p.name,
          ⟨specSchemaKind (dictGet f.annotations p.name), mntParamDesc f p.name⟩)) := by
  have h0 := mntLoop_props f f.params [] [] h (fun p _ => List.not_mem_nil _)
  have h1 : (getToolDescriptionMnt f).properties = (mntLoop f f.params [] []).1 := rfl
  rw [h1, h0]
  simp [mntSchema_eq]

/-- Callable for the C8 witness: six parameters exercising every branch of
the type mapping. -/
def c8mntFunc : PyFunc :=
  ⟨"shapes", some "Shapes.", false,
    [⟨"a", false⟩, ⟨"b", false⟩, ⟨"c", false⟩, ⟨"d", false⟩, ⟨"e", false⟩, ⟨"f", true⟩],
    [("a", .int), ("b", .float), ("c", .bool), ("d", .list), ("e", .dict)]⟩

/-- C8 (witness): the mapping on a concrete callable covering every
annotation case. -/
theorem c8_type_mapping_witness :
    (getToolDescriptionMnt c8mntFunc).properties =
      [("a", ⟨"integer", "Parameter a"⟩), ("b", ⟨"number", "Parameter b"⟩),
       ("c", ⟨"boolean", "Parameter c"⟩), ("d", ⟨"array", "Parameter d"⟩),
       ("e", ⟨"object", "Parameter e"⟩), ("f", ⟨"string", "Parameter f"⟩)] := by
  have h := c8_type_mapping c8mntFunc (by decide)
  rw [h]
  rfl

/-- C9: in every iteration whose reply dispatches an action (final-answer
check falsy, action parse succeeds), exactly one tool invocation occurs
(`toolCalls` grows by one) and exactly two messages are appended to the
transcript passed to the next iteration: the assistant reply followed by a
user-role message whose content is `Observation: ` plus the dispatcher's
observation. -/
theorem c9_transcript_growth (tools : List Tool) (llm : List Message → String)
    (maxIterations iteration fuel : Nat) (messages : List Message) (info : ParsedAction)
    (hf : finalAnswerTruthy (checkFinalAnswer (llm messages)) = false)
    (hp : parseAction (llm messages) = some info) :
    runIter tools llm maxIterations iteration (fuel + 1) messages =
      (let r := runIter tools llm maxIterations (iteration + 1) fuel
        (messages ++ [⟨"assistant", llm messages⟩,
          ⟨"user", "Observation: " ++ executeTool tools info.action info.actionInput⟩]);
       ⟨r.answer, r.llmCalls + 1, r.toolCalls + 1⟩) :=
  runIter_dispatched tools llm maxIterations iteration fuel messages info hf hp

/-- Tool and stub for the C9 witness. -/
def c9tool : Tool :=
  ⟨"echo9", "Echo", JVal.jobj [], fun _ => .ok (.pstr "ok")⟩

def c9llm : List Message → String := fun ms =>
  if ms.length == 2 then "Action: echo9\nAction Input: \x7b\x7d" else "Final Answer: done"

/-- C9 (witness): a concrete two-turn run — the dispatch iteration performs
one tool call and appends the two messages, after which the second reply
ends the run with 2 model calls and 1 tool call in total. -/
theorem c9_transcript_growth_witness :
    runIter [c9tool] c9llm 3 0 3 [⟨"system", "sys"⟩, ⟨"user", "q"⟩] = ⟨"done", 2, 1⟩ := by
  refine Eq.trans
    (c9_transcript_growth [c9tool] c9llm 3 0 2 [⟨"system", "sys"⟩, ⟨"user", "q"⟩]
      ⟨"echo9", JVal.jobj [], ""⟩ rfl rfl) ?_
  decide

/-- C10: passing a non-`None` `tools` argument to `run` replaces the agent
instance's tool list before the loop starts, the replacement persists after
`run` returns, and a subsequent `run` without a `tools` argument behaves
exactly as if the most recently passed list had been passed again. -/
theorem c10_tools_replacement (a : Agent) (llm llm' : List Message → String)
    (q q' : String) (ts : List Tool) :
    ((run a llm q (some ts)).2).tools = ts ∧
    run ((run a llm q (some ts)).2) llm' q' none =
      run ((run a llm q (some ts)).2) llm' q' (some ts) :=
  ⟨rfl, rfl⟩

end MiniAgent
